import Mathlib

/-!
# Verification of the objection-paginator boundary algebra

Shallow embedding of the keyset-pagination core of the repository:

* `ConcreteSortDescriptor` (src/src/concrete-sort-descriptor.ts): the
  normalized sort descriptor with its derived `order`, `nullOrder` and
  `operator` getters and the `checkCursorValue` / `validateCursorValue` /
  `getCursorValue` methods.
* `SortNode` (src/unnamed/part_004, the nullable-aware sort-node.ts): the
  recursive boundary chain with `getOrderByDescriptors`,
  `getOwnOrderByTerms`, `getOrderByTerms`, `getCursorValues` and the
  cursor-filter construction `applyCursorValues` / `applyCursorValue` /
  `applyNullCursorValue` / `applyNullCursorValueWithChildren` /
  `applyInequality` / `handleNulls`.
* `Cursor` (src/unnamed/part_010, the args-hash-aware cursor.ts): the
  cursor codec with `validateObject`, `parse`, `toObject`, `serialize`.
* `Paginator` (src/lib/paginator.ts): the orchestration in `execute`,
  `_getRemainingCount`, `_validateCursor`, `_createCursor`.

Query-builder mutation is modelled by an explicit clause list (`Builder`)
whose SQL meaning is given by `Builder.toPred` and `evalPred`; Objection
or Knex `where` / `orWhere` / `whereNull` / `orWhereNull` / `whereNotNull`
calls become clause appends, and grouping callbacks become nested builders
whose final predicate is appended as a single clause, exactly as the
generated SQL parenthesizes them.
-/

/-- JavaScript values as they occur in rows, cursors and decoded JSON:
only the constructors the library ever inspects.  JSON numbers are
modelled as integers; `jsUndefined` models the JavaScript `undefined` that
appears when an array is destructured past its end or an object path is
missing. -/
inductive JVal where
  | null : JVal
  | jsUndefined : JVal
  | str : String → JVal
  | int : Int → JVal
  | boolean : Bool → JVal
  | arr : List JVal → JVal
  | obj : List (String × JVal) → JVal

/-- Sort directions (src/unnamed/part_005 SortDirection: asc, desc,
descnl). -/
inductive SortDirection where
  | ascending
  | descending
  | descendingNullsLast
deriving DecidableEq

/-- The two normalized orders that can appear in an emitted ORDER BY term
(the TS getters return the literal strings "asc" and "desc"). -/
inductive Ord2 where
  | asc
  | desc
deriving DecidableEq

/-- Column types (src/unnamed/part_005 ColumnType). -/
inductive ColumnType where
  | string
  | integer
  | float
  | boolean
  | date
deriving DecidableEq

/-- ValidationCase (src/lib/get-error-class.ts). -/
inductive ValidationCase where
  | configuration
  | cursor
deriving DecidableEq

/-- The error taxonomies of the library that the claims mention. -/
inductive ErrClass where
  | configurationError
  | invalidCursorError
deriving DecidableEq

/-- A thrown library error: its class and its message. -/
structure PErr where
  cls : ErrClass
  msg : String
deriving DecidableEq

/-- getErrorClass (src/lib/get-error-class.ts): Configuration context
errors are ConfigurationErrors, Cursor context errors are
InvalidCursorErrors. -/
def getErrorClass : ValidationCase → ErrClass
  | .configuration => .configurationError
  | .cursor => .invalidCursorError

/-- Outcome of a user-supplied validation function: `boolean | string` in
TS. -/
inductive VOutcome where
  | ofBool : Bool → VOutcome
  | ofString : String → VOutcome

/-- ConcreteSortDescriptor (src/src/concrete-sort-descriptor.ts), after
construction: all fields defaulted and validated. -/
structure ConcreteSortDescriptor where
  column : String
  columnType : ColumnType
  nullable : Bool
  direction : SortDirection
  valuePath : String
  validate : Option (JVal → VOutcome)

namespace ConcreteSortDescriptor

/-- The `order` getter: normalized sort order for non-null ORDER BY
terms; DescendingNullsLast collapses to plain descending. -/
def order (d : ConcreteSortDescriptor) : Ord2 :=
  match d.direction with
  | .ascending => .asc
  | .descending => .desc
  | .descendingNullsLast => .desc

/-- The `nullOrder` getter: normalized sort order for `is null` ORDER BY
terms; DescendingNullsLast becomes ascending, the others map over
directly. -/
def nullOrder (d : ConcreteSortDescriptor) : Ord2 :=
  match d.direction with
  | .ascending => .asc
  | .descending => .desc
  | .descendingNullsLast => .asc

/-- The inequality comparison used in cursor filters; `>` is modelled as
`gt`, `<` as `lt`. -/
inductive Op where
  | gt
  | lt
deriving DecidableEq

/-- The `operator` getter: `>` for ascending, `<` otherwise. -/
def operator (d : ConcreteSortDescriptor) : Op :=
  match d.direction with
  | .ascending => .gt
  | _ => .lt

/-- checkCursorValue: per-type shape check, never throws. -/
def checkCursorValue (d : ConcreteSortDescriptor) (value : JVal) : Bool :=
  match d.columnType with
  | .string => match value with | .str _ => true | _ => false
  | .integer => match value with | .int _ => true | _ => false
  | .float => match value with | .int _ => true | _ => false
  | .boolean => match value with | .boolean _ => true | _ => false
  | .date => match value with | .str _ => true | _ => false

/-- validateCursorValue: null requires `nullable`, otherwise the shape
check must pass; then the optional custom validator runs, returning
true (valid), false (invalid with the default message) or a string
(invalid with that message).  The `validationCase` selects the error
class thrown on failure. -/
def validateCursorValue (d : ConcreteSortDescriptor) (value : JVal)
    (validationCase : ValidationCase) : Except PErr JVal :=
  let shapeErr : Option PErr :=
    match value with
    | .null =>
      if d.nullable then none
      else some ⟨getErrorClass validationCase,
        "Cursor value is null, but column is not nullable"⟩
    | _ =>
      if d.checkCursorValue value then none
      else some ⟨getErrorClass validationCase,
        "Cursor value does not match its column type"⟩
  match shapeErr with
  | some e => .error e
  | none =>
    let validateResult : VOutcome :=
      match d.validate with
      | some f => f value
      | none => .ofBool true
    let isValid : Bool :=
      match validateResult with
      | .ofString _ => false
      | .ofBool b => b
    let msg : String :=
      match validateResult with
      | .ofString s => s
      | .ofBool _ => "Invalid cursor value"
    if isValid then .ok value
    else .error ⟨getErrorClass validationCase, msg⟩

end ConcreteSortDescriptor

/-- A database row / Objection model instance, as the library reads it:
a total lookup from a dotted value path to the value found there, with
`jsUndefined` standing for a missing path. -/
abbrev Row : Type := String → JVal

/-- getCursorValue: reads the value at the descriptor valuePath from an
entity, normalizes undefined to null, and validates the result in
Configuration context. -/
def ConcreteSortDescriptor.getCursorValue (d : ConcreteSortDescriptor)
    (entity : Row) : Except PErr JVal :=
  let value := entity d.valuePath
  let value := match value with | .jsUndefined => .null | v => v
  d.validateCursorValue value .configuration

/-- SQL comparison of two values: defined (non-unknown) only between two
non-null values of the same comparable shape.  Null and undefined make
every comparison unknown, which filters as false. -/
def sqlCompare : JVal → JVal → Option Ordering
  | .str a, .str b => some (compare a b)
  | .int a, .int b => some (compare a b)
  | .boolean a, .boolean b => some (compare a b)
  | _, _ => none

/-- Whether a value is the SQL null. -/
def JVal.isNullB : JVal → Bool
  | .null => true
  | _ => false

/-- A boolean predicate over rows, as assembled by the query builder. -/
inductive WherePred where
  | top : WherePred
  | cmp : String → ConcreteSortDescriptor.Op → JVal → WherePred
  | eqv : String → JVal → WherePred
  | isNullP : String → WherePred
  | isNotNullP : String → WherePred
  | andP : WherePred → WherePred → WherePred
  | orP : WherePred → WherePred → WherePred

/-- SQL truth of a predicate at a row (unknown collapses to false, as in
a WHERE clause). -/
def evalPred : WherePred → Row → Bool
  | .top, _ => true
  | .cmp col op v, r =>
    match sqlCompare (r col) v, op with
    | some .gt, .gt => true
    | some .lt, .lt => true
    | _, _ => false
  | .eqv col v, r =>
    match sqlCompare (r col) v with
    | some .eq => true
    | _ => false
  | .isNullP col, r => match r col with | .null => true | _ => false
  | .isNotNullP col, r => match r col with | .null => false | _ => true
  | .andP p q, r => evalPred p r && evalPred q r
  | .orP p q, r => evalPred p r || evalPred q r

/-- The where-clause state of a Knex or Objection query builder: the
appended clauses, each flagged with whether it was joined by `orWhere`
(true) or by a plain and-`where` (false). -/
abbrev Builder : Type := List (Bool × WherePred)

/-- Folds an and-run until the next or-clause, mirroring SQL operator
precedence (AND binds tighter than OR) in the generated flat
`a and b or c and d` where-clause. -/
def toPredAux : WherePred → List (Bool × WherePred) → WherePred
  | acc, [] => acc
  | acc, (false, p) :: rest => toPredAux (.andP acc p) rest
  | acc, (true, p) :: rest => .orP acc (toPredAux p rest)

/-- The single predicate a builder state denotes (the or-combinator of
the first clause is ignored, as Knex does). -/
def Builder.toPred : Builder → WherePred
  | [] => .top
  | (_, p) :: rest => toPredAux p rest

/-- `where(column, operator, value)`. -/
def Builder.whereCmp (b : Builder) (col : String)
    (op : ConcreteSortDescriptor.Op) (v : JVal) : Builder :=
  b ++ [(false, .cmp col op v)]

/-- `where({ [column]: value })`. -/
def Builder.whereEq (b : Builder) (col : String) (v : JVal) : Builder :=
  b ++ [(false, .eqv col v)]

/-- `whereNull(column)`. -/
def Builder.whereNull (b : Builder) (col : String) : Builder :=
  b ++ [(false, .isNullP col)]

/-- `orWhereNull(column)`. -/
def Builder.orWhereNull (b : Builder) (col : String) : Builder :=
  b ++ [(true, .isNullP col)]

/-- `whereNotNull(column)`. -/
def Builder.whereNotNull (b : Builder) (col : String) : Builder :=
  b ++ [(false, .isNotNullP col)]

/-- `where(callback)`: the callback builds a sub-query whose clauses are
parenthesized into one and-joined group. -/
def Builder.whereGroup (b : Builder) (sub : Builder) : Builder :=
  b ++ [(false, sub.toPred)]

/-- `orWhere(callback)`: as `whereGroup` but or-joined. -/
def Builder.orWhereGroup (b : Builder) (sub : Builder) : Builder :=
  b ++ [(true, sub.toPred)]

/-- SortNode (src/unnamed/part_004): a linked list of sort descriptors,
one node per sorted column, with an optional child for subsorts. -/
inductive SortNode where
  | mk : ConcreteSortDescriptor → Option SortNode → SortNode

namespace SortNode

/-- The descriptor of the node. -/
def descriptor : SortNode → ConcreteSortDescriptor
  | .mk d _ => d

/-- The child node for subsorts, if any. -/
def child : SortNode → Option SortNode
  | .mk _ c => c

/-- The SortNode constructor: builds the chain from a descriptor array,
failing (TypeError in the source) when the array is empty. -/
def ofDescriptors : List ConcreteSortDescriptor → Option SortNode
  | [] => none
  | d :: rest =>
    match ofDescriptors rest with
    | some c => some (.mk d (some c))
    | none => some (.mk d none)

/-- The `anyNullable` field: true iff the descriptor of this node or of
any node below it is nullable (computed bottom-up in the constructor). -/
def anyNullable : SortNode → Bool
  | .mk d c =>
    d.nullable || (match c with | some n => anyNullable n | none => false)

/-- The number of nodes in the chain. -/
def chainLength : SortNode → Nat
  | .mk _ (some c) => 1 + chainLength c
  | .mk _ none => 1

/-- The number of nullable descriptors in the chain. -/
def nullableCount : SortNode → Nat
  | .mk d c =>
    (if d.nullable then 1 else 0) +
      (match c with | some n => nullableCount n | none => 0)

/-- getOrderByDescriptors: one (column, order) pair per node, in chain
order, handed to the plain orderBy facility. -/
def getOrderByDescriptors : SortNode → List (String × Ord2)
  | .mk d c =>
    (d.column, d.order) ::
      (match c with | some n => getOrderByDescriptors n | none => [])

/-- One raw ORDER BY term: either a plain column term `column order` or a
null-placement term `(column is null) order`. -/
inductive RawOrderTerm where
  | colOrd : String → Ord2 → RawOrderTerm
  | isNullOrd : String → Ord2 → RawOrderTerm
deriving DecidableEq

/-- getOwnOrderByTerms: the raw terms for this node alone; a nullable
column prepends an `is null` placement term using `nullOrder` before the
value term using `order`. -/
def getOwnOrderByTerms (d : ConcreteSortDescriptor) : List RawOrderTerm :=
  let terms := [RawOrderTerm.colOrd d.column d.order]
  if d.nullable then RawOrderTerm.isNullOrd d.column d.nullOrder :: terms
  else terms

/-- getOrderByTerms: the raw ORDER BY terms for this node and all of its
subsorts, concatenated in chain order. -/
def getOrderByTerms : SortNode → List RawOrderTerm
  | .mk d c =>
    getOwnOrderByTerms d ++
      (match c with | some n => getOrderByTerms n | none => [])

/-- getCursorValues: extracts one cursor value per node from an entity,
validating each in Configuration context. -/
def getCursorValues : SortNode → Row → Except PErr (List JVal)
  | .mk d c, entity => do
    let v ← d.getCursorValue entity
    match c with
    | some n => do
      let rest ← getCursorValues n entity
      pure (v :: rest)
    | none => pure [v]

end SortNode

/-- Whether a row sorts strictly before another row under a single raw
ORDER BY term.  A `(column is null)` term compares the boolean null
flags of the two rows, with false before true under asc (so nulls last)
and true before false under desc (so nulls first); a plain column term
compares the values. -/
def RawOrderTerm.before : SortNode.RawOrderTerm → Row → Row → Bool
  | .colOrd col ord, r1, r2 =>
    match sqlCompare (r1 col) (r2 col), ord with
    | some .lt, .asc => true
    | some .gt, .desc => true
    | _, _ => false
  | .isNullOrd col ord, r1, r2 =>
    let b1 : Bool := (r1 col).isNullB
    let b2 : Bool := (r2 col).isNullB
    match ord with
    | .asc => !b1 && b2
    | .desc => b1 && !b2

/-- The head of a boundary-values array, with JavaScript destructuring
semantics (undefined past the end). -/
def headValue (values : List JVal) : JVal :=
  match values.head? with
  | some v => v
  | none => JVal.jsUndefined

/-- handleNulls: after an inequality filter on a nullable column, nulls
are also included (orWhereNull) whenever the direction is not plain
descending. -/
def handleNulls (d : ConcreteSortDescriptor) (qry : Builder) : Builder :=
  if d.direction ≠ SortDirection.descending then qry.orWhereNull d.column
  else qry

/-- applyInequality: `column operator value`, plus null handling when the
column is nullable. -/
def applyInequality (d : ConcreteSortDescriptor) (qry : Builder)
    (value : JVal) : Builder :=
  let qry := qry.whereCmp d.column d.operator value
  if d.nullable then handleNulls d qry else qry

mutual

/-- applyCursorValues: validate the head value in Cursor context, then
dispatch on null versus non-null.  The head of an empty array is the
JavaScript undefined. -/
def SortNode.applyCursorValues :
    SortNode → Builder → List JVal → Except PErr Builder
  | .mk d c, qry, values =>
    let value := headValue values
    let childValues := values.drop 1
    match d.validateCursorValue value .cursor with
    | .error e => .error e
    | .ok _ =>
      match value with
      | .null => SortNode.applyNullCursorValue d c qry childValues
      | _ => SortNode.applyCursorValue d c qry value childValues

/-- applyCursorValue (non-null case), on the destructured descriptor and
child of the node: with a child,
`where(sub0 => sub0.where(sub1 => applyInequality(sub1, value))
.orWhere(sub1 => sub1.where(column = value); child.applyCursorValues))`;
without a child, just the inequality. -/
def SortNode.applyCursorValue (d : ConcreteSortDescriptor) :
    Option SortNode → Builder → JVal → List JVal → Except PErr Builder
  | some childNode, qry, value, childValues => do
    let sub1 : Builder := applyInequality d [] value
    let sub1eq ← SortNode.applyCursorValues childNode
      (Builder.whereEq [] d.column value) childValues
    let sub0 : Builder :=
      Builder.orWhereGroup (Builder.whereGroup [] sub1) sub1eq
    pure (qry.whereGroup sub0)
  | none, qry, value, _ => pure (applyInequality d qry value)

/-- applyNullCursorValue: with a child, delegate to
applyNullCursorValueWithChildren; without one, `whereNull(column)`
unless the direction is plain descending, in which case the query is
left unchanged. -/
def SortNode.applyNullCursorValue (d : ConcreteSortDescriptor) :
    Option SortNode → Builder → List JVal → Except PErr Builder
  | some childNode, qry, childValues =>
    SortNode.applyNullCursorValueWithChildren d childNode qry childValues
  | none, qry, _ =>
    if d.direction ≠ SortDirection.descending then
      pure (qry.whereNull d.column)
    else pure qry

/-- applyNullCursorValueWithChildren: descending puts nulls first, so
rows past a null boundary are the non-null rows wholesale or the null
rows passing the child filter:
`whereNotNull(column).orWhere(sub => sub.whereNull(column);
child.applyCursorValues(sub))`; any other direction keeps only the null
rows and applies the child filter in place:
`whereNull(column); child.applyCursorValues(qry)`. -/
def SortNode.applyNullCursorValueWithChildren (d : ConcreteSortDescriptor)
    (childNode : SortNode) (qry : Builder) (childValues : List JVal) :
    Except PErr Builder :=
  if d.direction = SortDirection.descending then do
    let sub ← SortNode.applyCursorValues childNode
      (Builder.whereNull [] d.column) childValues
    pure (Builder.orWhereGroup (qry.whereNotNull d.column) sub)
  else
    SortNode.applyCursorValues childNode (qry.whereNull d.column) childValues

end

/-- The InvalidJsonError thrown by the external @batterii/encode-object
decodeObject when its input is not a valid encoded JSON object; it keeps
the offending raw string. -/
structure InvalidJsonError where
  raw : String
deriving DecidableEq

/-- An encoded cursor string, as seen by the external
@batterii/encode-object codec: either the encoding of a JSON value
(everything encodeObject can produce, and every string decodeObject
accepts) or a string that fails decoding, kept verbatim.  The empty
string never decodes, so only `invalid` carries it. -/
inductive Wire where
  | valid : JVal → Wire
  | invalid : String → Wire

/-- Whether the cursor string is falsy in JavaScript: only the empty
string is.  Every decodable string is a nonempty base64 encoding, hence
truthy. -/
def Wire.isFalsy : Wire → Bool
  | .valid _ => false
  | .invalid s => s = ""

/-- decodeObject of the external codec: succeeds exactly on encoded JSON
values, raising InvalidJsonError otherwise. -/
def decodeObject : Wire → Except InvalidJsonError JVal
  | .valid j => .ok j
  | .invalid s => .error ⟨s⟩

/-- encodeObject of the external codec: always produces a decodable
string. -/
def encodeObject (j : JVal) : Wire :=
  .valid j

/-- Property lookup `value.k` on a decoded JSON value: only object
values have string-keyed fields; anything else yields undefined
(`none`). -/
def JVal.getField : JVal → String → Option JVal
  | .obj fields, k => fields.lookup k
  | _, _ => none

/-- lodash isObjectLike: objects and arrays. -/
def JVal.isObjectLike : JVal → Bool
  | .obj _ => true
  | .arr _ => true
  | _ => false

/-- Cursor (src/unnamed/part_010): query name, sort name, optional
values, optional args hash. -/
structure Cursor where
  query : String
  sort : String
  values : Option (List JVal)
  argsHash : Option String

/-- The CursorObj wire form `{ q, s, a?, v? }` after structural
validation. -/
structure CursorObj where
  q : String
  s : String
  a : Option String
  v : Option (List JVal)

/-- The distinct InvalidCursorErrors raised by Cursor.parse and
Cursor.validateObject, each carrying the offending value (the info
payload of the thrown error).  `invalidJson` additionally wraps the
underlying decode failure as its cause and carries the raw cursor
string. -/
inductive CursorParseError where
  | invalidJson : InvalidJsonError → Wire → CursorParseError
  | notObjectLike : JVal → CursorParseError
  | qNotString : Option JVal → CursorParseError
  | sNotString : Option JVal → CursorParseError
  | aNotString : JVal → CursorParseError
  | vNotArray : JVal → CursorParseError

/-- Every cursor parse failure is an InvalidCursorError. -/
def CursorParseError.errClass : CursorParseError → ErrClass :=
  fun _ => .invalidCursorError

namespace Cursor

/-- fromObject: builds a Cursor from the validated wire form. -/
def fromObject (obj : CursorObj) : Cursor :=
  ⟨obj.q, obj.s, obj.v, obj.a⟩

/-- validateObject: the value must be object-like, `q` and `s` must be
strings, `a` if present must be a string, `v` if present must be an
array; each violation raises its own InvalidCursorError. -/
def validateObject (value : JVal) : Except CursorParseError CursorObj :=
  if !value.isObjectLike then .error (.notObjectLike value)
  else
    match value.getField "q" with
    | some (.str q) =>
      match value.getField "s" with
      | some (.str s) =>
        let aRes : Except CursorParseError (Option String) :=
          match value.getField "a" with
          | none => .ok none
          | some (.str a) => .ok (some a)
          | some other => .error (.aNotString other)
        match aRes with
        | .error e => .error e
        | .ok a =>
          match value.getField "v" with
          | none => .ok ⟨q, s, a, none⟩
          | some (.arr v) => .ok ⟨q, s, a, some v⟩
          | some other => .error (.vNotArray other)
      | other => .error (.sNotString other)
    | other => .error (.qNotString other)

/-- parse: decode the string, wrapping an InvalidJsonError into an
InvalidCursorError that keeps the cause and the raw string; then
structurally validate and build the Cursor. -/
def parse (str : Wire) : Except CursorParseError Cursor :=
  match decodeObject str with
  | .error err => .error (.invalidJson err str)
  | .ok obj =>
    match validateObject obj with
    | .error e => .error e
    | .ok o => .ok (fromObject o)

/-- toObject: abbreviate to `{ q, s }`, adding `a` only when argsHash is
truthy (a nonempty string) and `v` only when values is truthy (any
array). -/
def toObject (c : Cursor) : JVal :=
  let base := [("q", JVal.str c.query), ("s", JVal.str c.sort)]
  let withA :=
    match c.argsHash with
    | some h => if h = "" then base else base ++ [("a", JVal.str h)]
    | none => base
  let withV :=
    match c.values with
    | some v => withA ++ [("v", JVal.arr v)]
    | none => withA
  .obj withV

/-- serialize: encode the abbreviated object form. -/
def serialize (c : Cursor) : Wire :=
  encodeObject c.toObject

end Cursor

/-- The distinct InvalidCursorErrors raised while validating a decoded
cursor against the paginator (identity and consistency checks). -/
inductive PagValidationError where
  | differentQuery : String → String → PagValidationError
  | differentSort : String → String → PagValidationError
  | argsHashMismatch : PagValidationError
deriving DecidableEq

/-- Every paginator cursor-validation failure is an InvalidCursorError. -/
def PagValidationError.errClass : PagValidationError → ErrClass :=
  fun _ => .invalidCursorError

/-- An error surfaced by Paginator.execute: either a cursor decode or
structural failure, a cursor identity failure, or a value validation
failure. -/
inductive ExecError where
  | parseFailure : CursorParseError → ExecError
  | identityFailure : PagValidationError → ExecError
  | valueFailure : PErr → ExecError

/-- The error class of an execute failure. -/
def ExecError.errClass : ExecError → ErrClass
  | .parseFailure e => e.errClass
  | .identityFailure e => e.errClass
  | .valueFailure e => e.cls

/-- The identity of a paginator instance as the cursor checks see it:
its query name, its sort name, and the freshly computed stable hash of
its declared arguments, when it declares any.

Modelled from the spec: the args-hash branch of
`Paginator._validateCursor` is not part of the sources under src (only
its unit test is); per the spec, a paginator that declares
argument-dependent results computes a stable fingerprint of the current
call's arguments which must equal the decoded `a` field.  The query and
sort checks below follow `Paginator._validateCursor` in
src/lib/paginator.ts. -/
structure PagIdentity where
  queryName : String
  sortName : String
  computedArgsHash : Option String

/-- Modelled from the spec (args-hash branch; query and sort branches
from src/lib/paginator.ts `Paginator._validateCursor`): the decoded
query must equal the expected query name, the decoded sort must equal
the requested sort, and, when the paginator declares arguments, the
freshly computed args fingerprint must equal the decoded `a` field.
Each mismatch raises its own InvalidCursorError. -/
def Paginator.validateCursor (p : PagIdentity) (c : Cursor) :
    Except PagValidationError Cursor :=
  if c.query ≠ p.queryName then
    .error (.differentQuery c.query p.queryName)
  else if c.sort ≠ p.sortName then
    .error (.differentSort c.sort p.sortName)
  else
    match p.computedArgsHash with
    | some h => if c.argsHash ≠ some h then .error .argsHashMismatch else .ok c
    | none => .ok c

/-- Paginator._parseCursor: parse the string, then validate the decoded
cursor against the paginator. -/
def Paginator.parseCursor (p : PagIdentity) (str : Wire) :
    Except ExecError Cursor :=
  match Cursor.parse str with
  | .error e => .error (.parseFailure e)
  | .ok c =>
    match Paginator.validateCursor p c with
    | .error e => .error (.identityFailure e)
    | .ok c => .ok c

/-- Paginator._getCursorValues: nothing for an absent cursor string,
otherwise the values of the parsed and validated cursor. -/
def Paginator.getCursorValuesFromString (p : PagIdentity)
    (str : Option Wire) : Except ExecError (Option (List JVal)) :=
  match str with
  | none => .ok none
  | some w =>
    match Paginator.parseCursor p w with
    | .error e => .error e
    | .ok c => .ok c.values

/-- Paginator._createCursor and _createCursorString: mint a cursor from
the last item of the page (extracting and validating its boundary
values), or an empty-boundary cursor when no item is given; then
serialize it.  The args fingerprint of the instance is stored when
present (modelled from the spec, as for validateCursor). -/
def Paginator.createCursorString (p : PagIdentity) (node : SortNode)
    (item : Option Row) : Except ExecError Wire :=
  match item with
  | some entity =>
    match node.getCursorValues entity with
    | .error e => .error (.valueFailure e)
    | .ok vs =>
      .ok (Cursor.serialize ⟨p.queryName, p.sortName, some vs, p.computedArgsHash⟩)
  | none =>
    .ok (Cursor.serialize ⟨p.queryName, p.sortName, none, p.computedArgsHash⟩)

/-- Paginator._getRemainingCount: zero without a second query when the
page came back short of the limit, otherwise the full result size of
the query minus the item count, fetched by a separate count query.  The
boolean records whether that second query ran. -/
def Paginator.getRemainingCount (limit : Nat) (itemCount : Nat)
    (resultSize : Int) : Int × Bool :=
  if itemCount < limit then (0, false)
  else (resultSize - itemCount, true)

/-- The outcome of Paginator.execute: the page plus whether the separate
remaining-count query was issued. -/
structure ExecResult where
  items : List Row
  remaining : Int
  cursor : Wire
  countQueried : Bool

/-- Applying the sort node cursor filters inside _getQuery: nothing for
an absent boundary, otherwise applyCursorValues, whose validation
failure aborts the whole execute. -/
def Paginator.applyValues (node : SortNode)
    (values? : Option (List JVal)) : Except ExecError Builder :=
  match values? with
  | some vs =>
    match node.applyCursorValues [] vs with
    | .error e => .error (.valueFailure e)
    | .ok b => .ok b
  | none => .ok []

/-- Whether the optional cursor string counts as unsupplied for the
minting decision: absent, or supplied but falsy. -/
def Paginator.cursorMissing : Option Wire → Bool
  | none => true
  | some w => w.isFalsy

/-- Paginator.execute (src/lib/paginator.ts): build the query (parsing
and validating the cursor string, and applying the sort node with the
cursor values, both of which can fail), run it (the executor's reply is
the `fetched` argument, its total matching-row count `resultSize`); if
any item came back, fetch the remaining count and mint the next cursor
from the last item; otherwise keep the supplied cursor string, or mint
an empty-boundary cursor when none was supplied (a falsy cursor string
counts as unsupplied). -/
def Paginator.execute (p : PagIdentity) (limit : Nat) (node : SortNode)
    (cursor : Option Wire) (fetched : List Row) (resultSize : Int) :
    Except ExecError ExecResult :=
  match Paginator.getCursorValuesFromString p cursor with
  | .error e => .error e
  | .ok values? =>
    match Paginator.applyValues node values? with
    | .error e => .error e
    | .ok _ =>
      match fetched.getLast? with
      | some lastItem =>
        let rc := Paginator.getRemainingCount limit fetched.length resultSize
        match Paginator.createCursorString p node (some lastItem) with
        | .error e => .error e
        | .ok w => .ok ⟨fetched, rc.1, w, rc.2⟩
      | none =>
        if Paginator.cursorMissing cursor then
          match Paginator.createCursorString p node none with
          | .error e => .error e
          | .ok w => .ok ⟨fetched, 0, w, false⟩
        else
          match cursor with
          | some w => .ok ⟨fetched, 0, w, false⟩
          | none => .ok ⟨fetched, 0, Cursor.serialize
              ⟨p.queryName, p.sortName, none, p.computedArgsHash⟩, false⟩

/-- lodash isString on a property lookup result (undefined is not a
string). -/
def isStringOpt : Option JVal → Bool
  | some (.str _) => true
  | _ => false

/-- lodash isString on a value. -/
def JVal.isStringB : JVal → Bool
  | .str _ => true
  | _ => false

/-- lodash isArray on a value. -/
def JVal.isArrayB : JVal → Bool
  | .arr _ => true
  | _ => false

/-- The boundary predicate in the shape the specification states for the
value rule: `(column OPERATOR v) OR (column == v AND
<tail.applyBoundary(values[1:])>)` recursively, with the plain
inequality at the last node.  This follows the words of the spec, for
comparison against the predicate the code emits. -/
def specBoundaryPred : SortNode → List JVal → WherePred
  | .mk d none, values =>
    .cmp d.column d.operator (headValue values)
  | .mk d (some c), values =>
    .orP (.cmp d.column d.operator (headValue values))
      (.andP (.eqv d.column (headValue values))
        (specBoundaryPred c (values.drop 1)))

/-! Concrete fixtures used by the claim theorems and witnesses. -/

/-- role: string, ascending (spec tie-break scenario). -/
def dRole : ConcreteSortDescriptor :=
  ⟨"role", .string, false, .ascending, "role", none⟩

/-- firstName: string, ascending (spec tie-break scenario). -/
def dFirstName : ConcreteSortDescriptor :=
  ⟨"firstName", .string, false, .ascending, "firstName", none⟩

/-- lastName: string, ascending (spec tie-break scenario). -/
def dLastName : ConcreteSortDescriptor :=
  ⟨"lastName", .string, false, .ascending, "lastName", none⟩

/-- id: integer, ascending (spec tie-break scenario). -/
def dId : ConcreteSortDescriptor :=
  ⟨"id", .integer, false, .ascending, "id", none⟩

/-- The tie-break scenario chain
[(role,string,asc), (firstName,string,asc), (lastName,string,asc),
(id,int,asc)]. -/
def scenarioChain : SortNode :=
  .mk dRole (some (.mk dFirstName (some (.mk dLastName (some (.mk dId none))))))

/-- The tie-break scenario boundary values. -/
def scenarioValues : List JVal :=
  [.str "admin", .str "Dude", .str "Bro", .int 3]

/-- A sample row tied with the scenario boundary on every column except
a larger id. -/
def scenarioRow : Row := fun s =>
  if s = "role" then .str "admin"
  else if s = "firstName" then .str "Dude"
  else if s = "lastName" then .str "Bro"
  else if s = "id" then .int 5
  else .jsUndefined

/-- A nullable ascending string column named a. -/
def dNulA : ConcreteSortDescriptor :=
  ⟨"a", .string, true, .ascending, "a", none⟩

/-- A non-nullable ascending string column named b. -/
def dColB : ConcreteSortDescriptor :=
  ⟨"b", .string, false, .ascending, "b", none⟩

/-- The two-column chain [a nullable, b] used to exhibit the nullable
deviations. -/
def mixedChain : SortNode :=
  .mk dNulA (some (.mk dColB none))

/-- A row that is null on column a. -/
def rowANull : Row := fun s =>
  if s = "a" then .null else if s = "b" then .str "k" else .jsUndefined

/-- A nullable ascending string column named c. -/
def dNulC : ConcreteSortDescriptor :=
  ⟨"c", .string, true, .ascending, "c", none⟩

/-- A row null on column c. -/
def rowCNull : Row := fun s =>
  if s = "c" then .null else .jsUndefined

/-- A row non-null on column c. -/
def rowCVal : Row := fun s =>
  if s = "c" then .str "x" else .jsUndefined

/-- score: float, nullable, descending-nulls-last (spec null-boundary
scenario). -/
def dScore : ConcreteSortDescriptor :=
  ⟨"score", .float, true, .descendingNullsLast, "score", none⟩

/-- The single-node chain [(score,float,nullable,descending-nulls-last)]. -/
def scoreChain : SortNode :=
  .mk dScore none

/-- A row with a null score. -/
def rowScoreNull : Row := fun s =>
  if s = "score" then .null else .jsUndefined

/-- A row with a non-null score. -/
def rowScoreVal : Row := fun s =>
  if s = "score" then .int 7 else .jsUndefined

/-- A non-nullable string descriptor on column name, with path name. -/
def dName : ConcreteSortDescriptor :=
  ⟨"name", .string, false, .ascending, "name", none⟩

/-- An entity whose name is null. -/
def entityNameNull : Row := fun s =>
  if s = "name" then .null else .jsUndefined

/-- An entity with name Alice and integer id 1. -/
def entityAlice : Row := fun s =>
  if s = "name" then .str "Alice" else if s = "id" then .int 1 else .jsUndefined

/-- Replace the class of an error, keeping its message. -/
def PErr.withClass (e : PErr) (c : ErrClass) : PErr :=
  ⟨c, e.msg⟩

/-- Map the error of an Except result. -/
def errMap {ε ε' α : Type} (f : ε → ε') : Except ε α → Except ε' α
  | .ok a => .ok a
  | .error e => .error (f e)

/-- The single-node name chain. -/
def nameNode : SortNode :=
  .mk dName none

/-- A paginator identity without declared arguments. -/
def pPeople : PagIdentity :=
  ⟨"People", "default", none⟩

/-- A well-formed cursor string for pPeople carrying one boundary
value. -/
def wAlice : Wire :=
  Cursor.serialize ⟨"People", "default", some [.str "Alice"], none⟩

/-- The predicate the scenario chain builds for the scenario boundary:
logically role gt admin OR (role eq admin AND (firstName gt Dude OR
(firstName eq Dude AND (lastName gt Bro OR (lastName eq Bro AND id gt
3))))). -/
def scenarioBuilder : Builder :=
  [(false,
    .orP (.cmp "role" .gt (.str "admin"))
      (.andP (.eqv "role" (.str "admin"))
        (.orP (.cmp "firstName" .gt (.str "Dude"))
          (.andP (.eqv "firstName" (.str "Dude"))
            (.orP (.cmp "lastName" .gt (.str "Bro"))
              (.andP (.eqv "lastName" (.str "Bro"))
                (.cmp "id" .gt (.int 3))))))))]

/-! Claim theorems. -/

/-- Monad pure on Except is ok (used to normalize concrete runs). -/
theorem exceptPureEq {e a : Type} (x : a) : (pure x : Except e a) = .ok x :=
  rfl

/-- Claim C2, counterexample: for a nullable ascending column the emitted
null-placement term is `(c is null) asc`, under which a null row sorts
after, not before, a non-null row — refuting that ascending places the
null class first. -/
theorem nullPlacementTerm_ascending_cx :
    SortNode.getOwnOrderByTerms dNulC =
      [.isNullOrd "c" .asc, .colOrd "c" .asc] ∧
    RawOrderTerm.before (.isNullOrd "c" .asc) rowCNull rowCVal = false ∧
    RawOrderTerm.before (.isNullOrd "c" .asc) rowCVal rowCNull = true := by
  refine ⟨?_, ?_, ?_⟩
  · simp [SortNode.getOwnOrderByTerms, dNulC, ConcreteSortDescriptor.nullOrder,
      ConcreteSortDescriptor.order]
  · simp [RawOrderTerm.before, rowCNull, rowCVal, JVal.isNullB]
  · simp [RawOrderTerm.before, rowCNull, rowCVal, JVal.isNullB]

/-- Claim C2 (amended): the null-placement ordering term emitted for a
nullable descriptor is `(column is null) nullOrder` before the value
term, and it places null rows before all non-null rows exactly when the
direction is plain descending; for ascending and descending-nulls-last
the null class sorts after every non-null row. -/
theorem nullPlacementTerm_direction (d : ConcreteSortDescriptor)
    (r1 r2 : Row) (hn : d.nullable = true) (h1 : r1 d.column = .null)
    (h2 : (r2 d.column).isNullB = false) :
    SortNode.getOwnOrderByTerms d =
      [.isNullOrd d.column d.nullOrder, .colOrd d.column d.order] ∧
    RawOrderTerm.before (.isNullOrd d.column d.nullOrder) r1 r2 =
      decide (d.direction = .descending) ∧
    RawOrderTerm.before (.isNullOrd d.column d.nullOrder) r2 r1 =
      decide (d.direction ≠ .descending) := by
  refine ⟨by simp [SortNode.getOwnOrderByTerms, hn], ?_, ?_⟩ <;>
    simp only [RawOrderTerm.before, h1] <;>
    cases hx : r2 d.column <;> cases hdir : d.direction <;>
    simp_all [JVal.isNullB, ConcreteSortDescriptor.nullOrder]

/-- Witness for C2: the amended placement property at the concrete
nullable ascending descriptor and concrete rows. -/
theorem nullPlacementTerm_direction_witness :
    SortNode.getOwnOrderByTerms dNulC =
      [.isNullOrd dNulC.column dNulC.nullOrder,
        .colOrd dNulC.column dNulC.order] ∧
    RawOrderTerm.before (.isNullOrd dNulC.column dNulC.nullOrder)
      rowCNull rowCVal = decide (dNulC.direction = .descending) ∧
    RawOrderTerm.before (.isNullOrd dNulC.column dNulC.nullOrder)
      rowCVal rowCNull = decide (dNulC.direction ≠ .descending) :=
  nullPlacementTerm_direction dNulC rowCNull rowCVal rfl rfl rfl

/-- Claim C3, counterexample: for the chain
[(score,float,nullable,descending-nulls-last)] and boundary [null] the
code emits the predicate `score is null`, and a dataset row with a null
score satisfies it — refuting that zero rows qualify on every
dataset. -/
theorem nullBoundary_descnl_cx :
    SortNode.applyCursorValues scoreChain [] [.null] =
      .ok [(false, .isNullP "score")] ∧
    evalPred (Builder.toPred [(false, .isNullP "score")]) rowScoreNull =
      true := by
  constructor
  · simp [scoreChain, SortNode.applyCursorValues,
      SortNode.applyNullCursorValue, headValue,
      ConcreteSortDescriptor.validateCursorValue, dScore,
      Builder.whereNull, exceptPureEq]
  · simp [Builder.toPred, toPredAux, evalPred, rowScoreNull]

/-- Claim C3 (amended): applying a null boundary to a single-descriptor
chain whose descriptor is nullable with direction descending-nulls-last
(and no custom validator) produces the predicate `column is null`:
exactly the rows that are null on the column qualify — the terminal
null equivalence class is selected again, not zero rows. -/
theorem nullBoundary_descnl_keeps_null_class (d : ConcreteSortDescriptor)
    (hn : d.nullable = true) (hdir : d.direction = .descendingNullsLast)
    (hv : d.validate = none) :
    SortNode.applyCursorValues (.mk d none) [] [.null] =
      .ok [(false, .isNullP d.column)] ∧
    ∀ row : Row,
      evalPred (Builder.toPred [(false, .isNullP d.column)]) row =
        (row d.column).isNullB := by
  constructor
  · simp [SortNode.applyCursorValues, SortNode.applyNullCursorValue,
      ConcreteSortDescriptor.validateCursorValue, hn, hv, hdir, headValue,
      Builder.whereNull, exceptPureEq]
  · intro row
    cases hx : row d.column <;>
      simp [Builder.toPred, toPredAux, evalPred, JVal.isNullB, hx]

/-- Witness for C3: the amended null-boundary property at the concrete
score descriptor, evaluated at a non-null row (false) via the second
conjunct. -/
theorem nullBoundary_descnl_keeps_null_class_witness :
    SortNode.applyCursorValues (.mk dScore none) [] [.null] =
      .ok [(false, .isNullP dScore.column)] ∧
    evalPred (Builder.toPred [(false, .isNullP dScore.column)])
      rowScoreVal = (rowScoreVal dScore.column).isNullB :=
  ⟨(nullBoundary_descnl_keeps_null_class dScore rfl rfl rfl).1,
    (nullBoundary_descnl_keeps_null_class dScore rfl rfl rfl).2 rowScoreVal⟩

/-- Claim C4, counterexample: a two-column chain whose first descriptor
is nullable and whose second is not has anyNullable true but only three
raw ORDER BY terms, not twice the chain length. -/
theorem orderByTerms_mixed_chain_cx :
    mixedChain.anyNullable = true ∧ mixedChain.chainLength = 2 ∧
    (SortNode.getOrderByTerms mixedChain).length = 3 ∧ (3 : Nat) ≠ 2 * 2 := by
  refine ⟨?_, ?_, ?_, by decide⟩
  · simp [mixedChain, SortNode.anyNullable, dNulA]
  · simp [mixedChain, SortNode.chainLength]
  · simp [mixedChain, SortNode.getOrderByTerms, SortNode.getOwnOrderByTerms,
      dNulA, dColB]

/-- Claim C4 (amended): the orderBy descriptor list (used when no
descriptor is nullable) always has length equal to the chain length,
and the raw ORDER BY term list (used when any descriptor is nullable)
has length equal to the chain length plus the number of nullable
descriptors — twice the chain length exactly when every descriptor is
nullable. -/
theorem orderByTerms_counts : ∀ node : SortNode,
    (SortNode.getOrderByDescriptors node).length = node.chainLength ∧
    (SortNode.getOrderByTerms node).length =
      node.chainLength + node.nullableCount
  | .mk d none => by
    refine ⟨by simp [SortNode.getOrderByDescriptors, SortNode.chainLength], ?_⟩
    simp only [SortNode.getOrderByTerms, SortNode.getOwnOrderByTerms,
      SortNode.chainLength, SortNode.nullableCount]
    cases d.nullable <;> simp
  | .mk d (some c) => by
    obtain ⟨ih1, ih2⟩ := orderByTerms_counts c
    refine ⟨?_, ?_⟩
    · simp only [SortNode.getOrderByDescriptors, SortNode.chainLength,
        List.length_cons, ih1]
      omega
    · simp only [SortNode.getOrderByTerms, SortNode.getOwnOrderByTerms,
        SortNode.chainLength, SortNode.nullableCount, List.length_append, ih2]
      cases d.nullable <;> simp <;> omega

/-- Claim C5 (confirmed): on a non-nullable descriptor a null value
raises a ConfigurationError when extracted from a server-side row via
getCursorValue, raises an InvalidCursorError when consumed from a
decoded cursor via applyCursorValues, and the validation logic is
otherwise identical: the Cursor-context result is the
Configuration-context result with only the error class exchanged. -/
theorem validation_context_separation (d : ConcreteSortDescriptor)
    (hnn : d.nullable = false) :
    (∀ entity : Row, entity d.valuePath = .null →
      d.getCursorValue entity =
        .error ⟨.configurationError,
          "Cursor value is null, but column is not nullable"⟩) ∧
    (∀ (c : Option SortNode) (qry : Builder) (rest : List JVal),
      SortNode.applyCursorValues (.mk d c) qry (.null :: rest) =
        .error ⟨.invalidCursorError,
          "Cursor value is null, but column is not nullable"⟩) ∧
    (∀ v : JVal, d.validateCursorValue v .cursor =
      errMap (fun e => e.withClass .invalidCursorError)
        (d.validateCursorValue v .configuration)) := by
  refine ⟨?_, ?_, ?_⟩
  · intro entity he
    simp [ConcreteSortDescriptor.getCursorValue, he,
      ConcreteSortDescriptor.validateCursorValue, hnn, getErrorClass]
  · intro c qry rest
    simp [SortNode.applyCursorValues, headValue,
      ConcreteSortDescriptor.validateCursorValue, hnn, getErrorClass]
  · intro v
    unfold ConcreteSortDescriptor.validateCursorValue
    cases v <;> simp only [getErrorClass] <;> split_ifs <;>
      simp [errMap, PErr.withClass]

/-- Witness for C5: the context separation at the concrete name
descriptor, a null entity and a sample string value. -/
theorem validation_context_separation_witness :
    (entityNameNull dName.valuePath = .null ∧
      dName.getCursorValue entityNameNull =
        .error ⟨.configurationError,
          "Cursor value is null, but column is not nullable"⟩) ∧
    SortNode.applyCursorValues (.mk dName none) [] [.null] =
      .error ⟨.invalidCursorError,
        "Cursor value is null, but column is not nullable"⟩ ∧
    dName.validateCursorValue (.str "Alice") .cursor =
      errMap (fun e => e.withClass .invalidCursorError)
        (dName.validateCursorValue (.str "Alice") .configuration) := by
  have h := validation_context_separation dName rfl
  exact ⟨⟨rfl, h.1 entityNameNull rfl⟩, h.2.1 none [] [], h.2.2 (.str "Alice")⟩

/-- Claim C6 (confirmed, args-hash branch modelled from the spec): each
identity mismatch while consuming a cursor produces its own distinct
InvalidCursorError: a different query identity, a different sort name,
and — when the paginator declares arguments — a decoded `a` field that
differs from the freshly computed args fingerprint. -/
theorem cursor_identity_checks (p : PagIdentity) (c : Cursor) (h : String) :
    (c.query ≠ p.queryName →
      Paginator.validateCursor p c =
        .error (.differentQuery c.query p.queryName)) ∧
    (c.query = p.queryName → c.sort ≠ p.sortName →
      Paginator.validateCursor p c =
        .error (.differentSort c.sort p.sortName)) ∧
    (c.query = p.queryName → c.sort = p.sortName →
      p.computedArgsHash = some h → c.argsHash ≠ some h →
      Paginator.validateCursor p c = .error .argsHashMismatch) ∧
    (PagValidationError.differentQuery c.query p.queryName).errClass =
      .invalidCursorError ∧
    (PagValidationError.differentSort c.sort p.sortName).errClass =
      .invalidCursorError ∧
    PagValidationError.argsHashMismatch.errClass = .invalidCursorError := by
  refine ⟨?_, ?_, ?_, rfl, rfl, rfl⟩
  · intro hq
    simp [Paginator.validateCursor, hq]
  · intro hq hs
    simp [Paginator.validateCursor, hq, hs]
  · intro hq hs hh ha
    simp [Paginator.validateCursor, hq, hs, hh, ha]

/-- Witness for C6: the three mismatches on concrete cursors (a cursor
from Pets consumed by People, a cursor for another sort, and a stale
args fingerprint). -/
theorem cursor_identity_checks_witness :
    Paginator.validateCursor ⟨"People", "default", some "h1"⟩
      ⟨"Pets", "default", none, some "h1"⟩ =
      .error (.differentQuery "Pets" "People") ∧
    Paginator.validateCursor ⟨"People", "default", some "h1"⟩
      ⟨"People", "other", none, some "h1"⟩ =
      .error (.differentSort "other" "default") ∧
    Paginator.validateCursor ⟨"People", "default", some "h1"⟩
      ⟨"People", "default", none, some "h2"⟩ =
      .error .argsHashMismatch := by
  refine ⟨?_, ?_, ?_⟩
  · exact (cursor_identity_checks ⟨"People", "default", some "h1"⟩
      ⟨"Pets", "default", none, some "h1"⟩ "h1").1 (by decide)
  · exact ((cursor_identity_checks ⟨"People", "default", some "h1"⟩
      ⟨"People", "other", none, some "h1"⟩ "h1").2.1 rfl (by decide))
  · exact ((cursor_identity_checks ⟨"People", "default", some "h1"⟩
      ⟨"People", "default", none, some "h2"⟩ "h1").2.2.1 rfl rfl rfl
        (by decide))

/-- Claim C7, counterexample: a cursor whose argsFingerprint is the
empty string loses it across the round trip (the empty string is falsy,
so toObject omits the `a` field), so the decoded fields are not value
equal to the original ones. -/
theorem cursor_roundtrip_cx :
    Cursor.parse (Cursor.serialize ⟨"q1", "s1", none, some ""⟩) =
      .ok ⟨"q1", "s1", none, none⟩ ∧
    (some "" : Option String) ≠ none := by
  constructor
  · simp [Cursor.serialize, Cursor.toObject, encodeObject, Cursor.parse,
      decodeObject, Cursor.validateObject, JVal.isObjectLike, JVal.getField,
      List.lookup, Cursor.fromObject]
  · simp

/-- Claim C7 (amended): for every cursor whose args fingerprint is not
the empty string (absent or nonempty), decoding the encoding restores
all four fields value-equal. -/
theorem cursor_roundtrip (c : Cursor) (h : c.argsHash ≠ some "") :
    Cursor.parse (Cursor.serialize c) =
      .ok ⟨c.query, c.sort, c.values, c.argsHash⟩ := by
  obtain ⟨q, s, vs, ah⟩ := c
  simp only [Cursor.serialize, Cursor.toObject, encodeObject, Cursor.parse,
    decodeObject]
  cases ah with
  | none =>
    cases vs <;>
      simp [Cursor.validateObject, JVal.isObjectLike, JVal.getField,
        List.lookup, Cursor.fromObject]
  | some h0 =>
    have h0ne : h0 ≠ "" := by simpa using h
    cases vs <;>
      simp [Cursor.validateObject, JVal.isObjectLike, JVal.getField,
        List.lookup, Cursor.fromObject, h0ne]

/-- Witness for C7: the round trip of a concrete cursor carrying a query
name, sort name, values and a nonempty args fingerprint. -/
theorem cursor_roundtrip_witness :
    Cursor.parse (Cursor.serialize
        ⟨"People", "default", some [.str "admin", .int 3], some "h1"⟩) =
      .ok ⟨"People", "default", some [.str "admin", .int 3], some "h1"⟩ :=
  cursor_roundtrip ⟨"People", "default", some [.str "admin", .int 3], some "h1"⟩
    (by decide)

/-- Claim C8 (confirmed): every decode failure of the cursor string is
wrapped into an InvalidCursorError keeping the underlying
InvalidJsonError as cause and the raw string; after a successful
decode, each structural violation (not object-like, q not a string, s
not a string, a present but not a string, v present but not an array)
raises its own distinct InvalidCursorError carrying the offending
value. -/
theorem cursor_parse_errors :
    (∀ (s : String) (e : InvalidJsonError),
      decodeObject (.invalid s) = .error e →
      Cursor.parse (.invalid s) = .error (.invalidJson e (.invalid s))) ∧
    (∀ j : JVal, j.isObjectLike = false →
      Cursor.parse (.valid j) = .error (.notObjectLike j)) ∧
    (∀ j : JVal, j.isObjectLike = true →
      isStringOpt (j.getField "q") = false →
      Cursor.parse (.valid j) = .error (.qNotString (j.getField "q"))) ∧
    (∀ (j : JVal) (q : String), j.isObjectLike = true →
      j.getField "q" = some (.str q) →
      isStringOpt (j.getField "s") = false →
      Cursor.parse (.valid j) = .error (.sNotString (j.getField "s"))) ∧
    (∀ (j : JVal) (q s : String) (av : JVal),
      j.isObjectLike = true →
      j.getField "q" = some (.str q) → j.getField "s" = some (.str s) →
      j.getField "a" = some av → av.isStringB = false →
      Cursor.parse (.valid j) = .error (.aNotString av)) ∧
    (∀ (j : JVal) (q s : String) (vv : JVal),
      j.isObjectLike = true →
      j.getField "q" = some (.str q) → j.getField "s" = some (.str s) →
      j.getField "a" = none →
      j.getField "v" = some vv → vv.isArrayB = false →
      Cursor.parse (.valid j) = .error (.vNotArray vv)) := by
  refine ⟨?_, ?_, ?_, ?_, ?_, ?_⟩
  · intro s e he
    simp only [decodeObject, Except.error.injEq] at he
    simp [Cursor.parse, decodeObject, he]
  · intro j hj
    simp [Cursor.parse, decodeObject, Cursor.validateObject, hj]
  · intro j hj hq
    rcases hgq : j.getField "q" with _ | v
    · simp [Cursor.parse, decodeObject, Cursor.validateObject, hj, hgq]
    · cases v <;>
        simp_all [Cursor.parse, decodeObject, Cursor.validateObject,
          isStringOpt, hj, hgq]
  · intro j q hj hq hs
    rcases hgs : j.getField "s" with _ | v
    · simp [Cursor.parse, decodeObject, Cursor.validateObject, hj, hq, hgs]
    · cases v <;>
        simp_all [Cursor.parse, decodeObject, Cursor.validateObject,
          isStringOpt, hj, hq, hgs]
  · intro j q s av hj hq hs hga hav
    cases av <;>
      simp_all [Cursor.parse, decodeObject, Cursor.validateObject,
        JVal.isStringB, hj, hq, hs, hga]
  · intro j q s vv hj hq hs hga hgv hvv
    cases vv <;>
      simp_all [Cursor.parse, decodeObject, Cursor.validateObject,
        JVal.isArrayB, hj, hq, hs, hga, hgv]

/-- Witness for C8: a concrete undecodable string and concrete decoded
values exhibiting each structural violation. -/
theorem cursor_parse_errors_witness :
    Cursor.parse (.invalid "garbage") =
      .error (.invalidJson ⟨"garbage"⟩ (.invalid "garbage")) ∧
    Cursor.parse (.valid (.int 5)) = .error (.notObjectLike (.int 5)) ∧
    Cursor.parse (.valid (.obj [("s", .str "d")])) =
      .error (.qNotString none) ∧
    Cursor.parse (.valid (.obj [("q", .str "P")])) =
      .error (.sNotString none) ∧
    Cursor.parse (.valid
        (.obj [("q", .str "P"), ("s", .str "d"), ("a", .int 7)])) =
      .error (.aNotString (.int 7)) ∧
    Cursor.parse (.valid
        (.obj [("q", .str "P"), ("s", .str "d"), ("v", .str "x")])) =
      .error (.vNotArray (.str "x")) := by
  obtain ⟨h1, h2, h3, h4, h5, h6⟩ := cursor_parse_errors
  exact ⟨h1 "garbage" ⟨"garbage"⟩ rfl, h2 (.int 5) rfl,
    h3 (.obj [("s", .str "d")]) rfl rfl,
    h4 (.obj [("q", .str "P")]) "P" rfl rfl rfl,
    h5 (.obj [("q", .str "P"), ("s", .str "d"), ("a", .int 7)])
      "P" "d" (.int 7) rfl rfl rfl rfl rfl,
    h6 (.obj [("q", .str "P"), ("s", .str "d"), ("v", .str "x")])
      "P" "d" (.str "x") rfl rfl rfl rfl rfl rfl⟩

/-- A parse that succeeded consumed a decodable, hence nonempty and
truthy, cursor string. -/
theorem parse_ok_not_falsy (w : Wire) (c : Cursor)
    (h : Cursor.parse w = .ok c) : w.isFalsy = false := by
  cases w with
  | valid j => rfl
  | invalid s => simp [Cursor.parse, decodeObject] at h

/-- Extracting cursor values from a supplied string succeeds only on a
truthy string. -/
theorem getCursorValuesFromString_ok_not_falsy (p : PagIdentity) (w : Wire)
    (ov : Option (List JVal))
    (h : Paginator.getCursorValuesFromString p (some w) = .ok ov) :
    w.isFalsy = false := by
  simp only [Paginator.getCursorValuesFromString] at h
  cases hp : Paginator.parseCursor p w with
  | error e => rw [hp] at h; cases h
  | ok c =>
    simp only [Paginator.parseCursor] at hp
    cases hq : Cursor.parse w with
    | error e => rw [hq] at hp; cases hp
    | ok c2 => exact parse_ok_not_falsy w c2 hq

/-- Shape of every successful Paginator.execute run: the items are the
fetched rows; an empty page keeps remaining 0 without the count query
and either echoes the supplied truthy cursor string or mints the
empty-boundary cursor; a nonempty page takes remaining and the query
flag from getRemainingCount and mints the next cursor from the last
row. -/
theorem execute_ok_cases (p : PagIdentity) (limit : Nat) (node : SortNode)
    (cursor : Option Wire) (fetched : List Row) (resultSize : Int)
    (res : ExecResult)
    (hex : Paginator.execute p limit node cursor fetched resultSize =
      .ok res) :
    res.items = fetched ∧
    ((fetched = [] ∧ res.remaining = 0 ∧ res.countQueried = false ∧
        ((∃ w, cursor = some w ∧ w.isFalsy = false ∧ res.cursor = w) ∨
         ((cursor = none ∨ ∃ w, cursor = some w ∧ w.isFalsy = true) ∧
           res.cursor = Cursor.serialize
             ⟨p.queryName, p.sortName, none, p.computedArgsHash⟩))) ∨
     (fetched ≠ [] ∧
        res.remaining =
          (Paginator.getRemainingCount limit fetched.length resultSize).1 ∧
        res.countQueried =
          (Paginator.getRemainingCount limit fetched.length resultSize).2 ∧
        ∃ li vs, fetched.getLast? = some li ∧
          node.getCursorValues li = .ok vs ∧
          res.cursor = Cursor.serialize
            ⟨p.queryName, p.sortName, some vs, p.computedArgsHash⟩)) := by
  cases hcv : Paginator.getCursorValuesFromString p cursor with
  | error e => simp [Paginator.execute, hcv] at hex
  | ok ov =>
    cases hap : Paginator.applyValues node ov with
    | error e => simp [Paginator.execute, hcv, hap] at hex
    | ok b =>
      cases hl : fetched.getLast? with
      | some li =>
        have hne : fetched ≠ [] := by
          intro hnil
          rw [hnil] at hl
          cases hl
        cases hgv : node.getCursorValues li with
        | error e =>
          simp [Paginator.execute, hcv, hap, hl,
            Paginator.createCursorString, hgv] at hex
        | ok vs =>
          simp only [Paginator.execute, hcv, hap, hl,
            Paginator.createCursorString, hgv, Except.ok.injEq] at hex
          subst hex
          exact ⟨rfl, .inr ⟨hne, rfl, rfl, li, vs, rfl, hgv, rfl⟩⟩
      | none =>
        have hnil : fetched = [] := List.getLast?_eq_none_iff.mp hl
        cases hm : Paginator.cursorMissing cursor with
        | true =>
          simp only [Paginator.execute, hcv, hap, hl, hm,
            Paginator.createCursorString, if_true, Except.ok.injEq] at hex
          subst hex
          refine ⟨rfl, .inl ⟨hnil, rfl, rfl, .inr ⟨?_, rfl⟩⟩⟩
          cases cursor with
          | none => exact .inl rfl
          | some w =>
            exact .inr ⟨w, rfl, by simpa [Paginator.cursorMissing] using hm⟩
        | false =>
          cases cursor with
          | none => simp [Paginator.cursorMissing] at hm
          | some w =>
            simp only [Paginator.execute, hcv, hap, hl, hm,
              Bool.false_eq_true, if_false, Except.ok.injEq] at hex
            subst hex
            refine ⟨rfl, .inl ⟨hnil, rfl, rfl, .inl ⟨w, rfl, ?_, rfl⟩⟩⟩
            simpa [Paginator.cursorMissing] using hm

/-- Claim C9 (confirmed): for a positive limit and an executor honoring
it, a successful execute issues the separate remaining-count query
exactly when the fetched row count equals the limit; a short page
reports remaining 0 without the second query, and a full page reports
the total matching-row count minus the fetched count. -/
theorem remaining_count_policy (p : PagIdentity) (limit : Nat)
    (node : SortNode) (cursor : Option Wire) (fetched : List Row)
    (resultSize : Int) (res : ExecResult)
    (hpos : 0 < limit) (hle : fetched.length ≤ limit)
    (hex : Paginator.execute p limit node cursor fetched resultSize =
      .ok res) :
    (res.countQueried = true ↔ fetched.length = limit) ∧
    (fetched.length < limit → res.remaining = 0) ∧
    (fetched.length = limit →
      res.remaining = resultSize - fetched.length) := by
  obtain ⟨-, hcase⟩ :=
    execute_ok_cases p limit node cursor fetched resultSize res hex
  rcases hcase with ⟨hnil, hrem, hcq, -⟩ | ⟨hne, hrem, hcq, -⟩
  · subst hnil
    refine ⟨?_, fun _ => hrem,
      fun h0 => absurd h0 (by simp only [List.length_nil]; omega)⟩
    rw [hcq]
    simp only [List.length_nil]
    constructor
    · intro h; cases h
    · intro h; omega
  · unfold Paginator.getRemainingCount at hrem hcq
    by_cases hlt : fetched.length < limit
    · simp only [hlt, if_true] at hrem hcq
      refine ⟨?_, fun _ => hrem, fun h0 => absurd h0 (by omega)⟩
      rw [hcq]
      constructor
      · intro h; cases h
      · intro h; omega
    · have heq : fetched.length = limit := by omega
      simp only [hlt, if_false] at hrem hcq
      exact ⟨by rw [hcq]; simp [heq], fun hc => absurd hc hlt,
        fun _ => by rw [hrem]⟩

/-- Witness for C9: a concrete execute run at limit 2 returning a full
page of 2 rows out of 5 matches: the count query ran and remaining is
3. -/
theorem remaining_count_policy_witness :
    ((⟨[entityAlice, entityAlice], 3, wAlice, true⟩ : ExecResult).countQueried
        = true ↔ ([entityAlice, entityAlice] : List Row).length = 2) ∧
    (([entityAlice, entityAlice] : List Row).length < 2 →
      (⟨[entityAlice, entityAlice], 3, wAlice, true⟩ : ExecResult).remaining
        = 0) ∧
    (([entityAlice, entityAlice] : List Row).length = 2 →
      (⟨[entityAlice, entityAlice], 3, wAlice, true⟩ : ExecResult).remaining
        = 5 - (([entityAlice, entityAlice] : List Row).length : Int)) := by
  refine remaining_count_policy pPeople 2 nameNode none
    [entityAlice, entityAlice] 5 ⟨[entityAlice, entityAlice], 3, wAlice, true⟩
    (by decide) (by decide) ?_
  simp [Paginator.execute, Paginator.getCursorValuesFromString,
    Paginator.applyValues, Paginator.createCursorString,
    SortNode.getCursorValues, ConcreteSortDescriptor.getCursorValue,
    ConcreteSortDescriptor.validateCursorValue,
    ConcreteSortDescriptor.checkCursorValue, dName, entityAlice, nameNode,
    pPeople, wAlice, Paginator.getRemainingCount, exceptPureEq, bind,
    Except.bind]

/-- A successful execute on a supplied cursor string implies the string
was truthy. -/
theorem execute_ok_cursor_not_falsy (p : PagIdentity) (limit : Nat)
    (node : SortNode) (w : Wire) (fetched : List Row) (resultSize : Int)
    (res : ExecResult)
    (hex : Paginator.execute p limit node (some w) fetched resultSize =
      .ok res) : w.isFalsy = false := by
  cases hcv : Paginator.getCursorValuesFromString p (some w) with
  | error e => simp [Paginator.execute, hcv] at hex
  | ok ov => exact getCursorValuesFromString_ok_not_falsy p w ov hcv

/-- Claim C10 (confirmed): when a cursor string was supplied and the
page query returned zero rows, execute hands back exactly the supplied
cursor string; the fresh empty-boundary cursor is minted only for an
empty page with no supplied cursor, and a nonempty page always mints a
cursor carrying extracted boundary values. -/
theorem empty_page_cursor_passthrough (p : PagIdentity) (limit : Nat)
    (node : SortNode) (w : Wire) (resultSize : Int)
    (fetched : List Row) (res res2 res3 : ExecResult) :
    (Paginator.execute p limit node (some w) [] resultSize = .ok res →
      res.cursor = w) ∧
    (Paginator.execute p limit node none [] resultSize = .ok res2 →
      res2.cursor = Cursor.serialize
        ⟨p.queryName, p.sortName, none, p.computedArgsHash⟩) ∧
    (fetched ≠ [] →
      Paginator.execute p limit node (some w) fetched resultSize =
        .ok res3 →
      ∃ vs, res3.cursor = Cursor.serialize
        ⟨p.queryName, p.sortName, some vs, p.computedArgsHash⟩) := by
  refine ⟨?_, ?_, ?_⟩
  · intro hex
    obtain ⟨-, hcase⟩ :=
      execute_ok_cases p limit node (some w) [] resultSize res hex
    rcases hcase with ⟨-, -, -, hcur⟩ | ⟨hne, -⟩
    · rcases hcur with ⟨w2, hw2, -, hres⟩ | ⟨hmiss, -⟩
      · cases hw2
        exact hres
      · rcases hmiss with hnone | ⟨w2, hw2, hf⟩
        · cases hnone
        · injection hw2 with hww
          subst hww
          have hnf := execute_ok_cursor_not_falsy p limit node w []
            resultSize res hex
          rw [hnf] at hf
          cases hf
    · exact absurd rfl hne
  · intro hex
    obtain ⟨-, hcase⟩ :=
      execute_ok_cases p limit node none [] resultSize res2 hex
    rcases hcase with ⟨-, -, -, hcur⟩ | ⟨hne, -⟩
    · rcases hcur with ⟨w2, hw2, -, -⟩ | ⟨-, hres⟩
      · cases hw2
      · exact hres
    · exact absurd rfl hne
  · intro hne hex
    obtain ⟨-, hcase⟩ :=
      execute_ok_cases p limit node (some w) fetched resultSize res3 hex
    rcases hcase with ⟨hnil, -⟩ | ⟨-, -, -, li, vs, -, -, hres⟩
    · exact absurd hnil hne
    · exact ⟨vs, hres⟩

/-- Witness for C10: concrete empty-page runs with and without a
supplied cursor string, and a nonempty run minting from the fetched
row. -/
theorem empty_page_cursor_passthrough_witness :
    (⟨[], 0, wAlice, false⟩ : ExecResult).cursor = wAlice ∧
    ((⟨[], 0, Cursor.serialize ⟨"People", "default", none, none⟩, false⟩ :
        ExecResult).cursor = Cursor.serialize
      ⟨pPeople.queryName, pPeople.sortName, none,
        pPeople.computedArgsHash⟩) ∧
    ∃ vs, (⟨[entityAlice], -1, wAlice, true⟩ : ExecResult).cursor =
      Cursor.serialize ⟨pPeople.queryName, pPeople.sortName, some vs,
        pPeople.computedArgsHash⟩ := by
  obtain ⟨h1, h2, h3⟩ := empty_page_cursor_passthrough pPeople 1 nameNode
    wAlice 0 [entityAlice] ⟨[], 0, wAlice, false⟩
    ⟨[], 0, Cursor.serialize ⟨"People", "default", none, none⟩, false⟩
    ⟨[entityAlice], -1, wAlice, true⟩
  refine ⟨h1 ?_, h2 ?_, h3 (by simp) ?_⟩ <;>
    simp [Paginator.execute, Paginator.getCursorValuesFromString,
      Paginator.parseCursor, Paginator.validateCursor, Cursor.parse,
      Cursor.serialize, Cursor.toObject, encodeObject, decodeObject,
      Cursor.validateObject, JVal.isObjectLike, JVal.getField, List.lookup,
      Cursor.fromObject, Paginator.applyValues, SortNode.applyCursorValues,
      SortNode.applyCursorValue, applyInequality,
      ConcreteSortDescriptor.validateCursorValue,
      ConcreteSortDescriptor.checkCursorValue,
      ConcreteSortDescriptor.operator, Builder.whereCmp,
      Paginator.createCursorString, SortNode.getCursorValues,
      ConcreteSortDescriptor.getCursorValue, Paginator.getRemainingCount,
      Paginator.cursorMissing, Wire.isFalsy, nameNode, dName, pPeople,
      wAlice, entityAlice, exceptPureEq, bind, Except.bind, headValue]

/-- applyInequality only appends clauses to the builder it receives. -/
theorem applyInequality_append (d : ConcreteSortDescriptor) (qry : Builder)
    (v : JVal) :
    applyInequality d qry v = qry ++ applyInequality d [] v := by
  unfold applyInequality handleNulls Builder.whereCmp Builder.orWhereNull
  split_ifs <;> simp

/-- applyCursorValues only appends clauses to the builder it receives:
its effect on any builder is its effect on the empty builder, appended. -/
theorem applyCursorValues_append : ∀ (node : SortNode) (qry : Builder)
    (values : List JVal),
    SortNode.applyCursorValues node qry values =
      (SortNode.applyCursorValues node [] values).map (fun r => qry ++ r)
  | .mk d none, qry, values => by
    simp only [SortNode.applyCursorValues]
    cases hval : d.validateCursorValue (headValue values) .cursor with
    | error e => simp [Except.map]
    | ok u =>
      cases hvv : headValue values with
      | null =>
        simp only [SortNode.applyNullCursorValue]
        split_ifs <;> simp [Except.map, Builder.whereNull, exceptPureEq]
      | _ =>
        simp only [SortNode.applyCursorValue]
        rw [applyInequality_append d qry]
        simp [Except.map, exceptPureEq]
  | .mk d (some childNode), qry, values => by
    have ih := applyCursorValues_append childNode
    simp only [SortNode.applyCursorValues, List.drop_one]
    cases hval : d.validateCursorValue (headValue values) .cursor with
    | error e => simp [Except.map]
    | ok u =>
      cases hvv : headValue values with
      | null =>
        simp only [SortNode.applyNullCursorValue,
          SortNode.applyNullCursorValueWithChildren]
        split_ifs with hdir
        · cases hs : SortNode.applyCursorValues childNode
            (Builder.whereNull [] d.column) values.tail with
          | error e => simp [hs, Except.map, bind, Except.bind]
          | ok sub =>
            simp [hs, Except.map, Builder.whereNotNull, Builder.orWhereGroup,
              exceptPureEq, bind, Except.bind]
        · rw [ih (Builder.whereNull qry d.column) values.tail,
            ih (Builder.whereNull [] d.column) values.tail]
          cases hs : SortNode.applyCursorValues childNode [] values.tail with
          | error e => simp [Except.map]
          | ok sub => simp [Except.map, Builder.whereNull]
      | _ =>
        simp only [SortNode.applyCursorValue]
        cases hs : SortNode.applyCursorValues childNode
            (Builder.whereEq [] d.column (headValue values))
            values.tail with
        | error e =>
          rw [hvv] at hs
          simp [hs, Except.map, bind, Except.bind]
        | ok sub =>
          rw [hvv] at hs
          simp [hs, Except.map, bind, Except.bind, Builder.whereGroup,
            Builder.orWhereGroup, exceptPureEq]

/-- Cursor validation on a non-nullable descriptor never accepts null. -/
theorem validate_ok_head_not_null (d : ConcreteSortDescriptor) (u : JVal)
    (values : List JVal) (hdn : d.nullable = false)
    (hval : d.validateCursorValue (headValue values) .cursor = .ok u) :
    headValue values ≠ .null := by
  intro hnull
  rw [hnull] at hval
  simp [ConcreteSortDescriptor.validateCursorValue, hdn] at hval

/-- On a chain with no nullable descriptor, a successful boundary
application to the empty builder appends exactly one and-joined
clause. -/
theorem applyCursorValues_ok_shape : ∀ (node : SortNode)
    (values : List JVal) (r : Builder),
    node.anyNullable = false →
    SortNode.applyCursorValues node [] values = .ok r →
    ∃ q, r = [(false, q)] := by
  intro node values r hnn hr
  cases node with
  | mk d c =>
    have hdn : d.nullable = false := by
      cases c <;> simp_all [SortNode.anyNullable]
    simp only [SortNode.applyCursorValues] at hr
    cases hval : d.validateCursorValue (headValue values) .cursor with
    | error e => rw [hval] at hr; cases hr
    | ok u =>
      rw [hval] at hr
      have hnonull := validate_ok_head_not_null d u values hdn hval
      cases hvv : headValue values with
      | null => exact absurd hvv hnonull
      | _ =>
        simp only [hvv] at hr
        cases c with
        | none =>
          simp only [SortNode.applyCursorValue, exceptPureEq,
            Except.ok.injEq] at hr
          simp only [applyInequality, hdn, Bool.false_eq_true, if_false,
            Builder.whereCmp, List.nil_append] at hr
          exact ⟨_, hr.symm⟩
        | some childNode =>
          simp only [SortNode.applyCursorValue, bind, Except.bind] at hr
          split at hr
          · cases hr
          · simp only [exceptPureEq, Except.ok.injEq] at hr
            simp only [Builder.whereGroup, List.nil_append] at hr
            exact ⟨_, hr.symm⟩

/-- One unfolding of a successful non-null boundary application on a
non-nullable descriptor with a tail, with the tail predicate expressed
as the clauses appended after the equality seed. -/
theorem applyCursorValues_cons_step (d : ConcreteSortDescriptor)
    (c : SortNode) (v : JVal) (rest : List JVal) (rt : Builder) (u : JVal)
    (hval : d.validateCursorValue v .cursor = .ok u)
    (hvnn : v ≠ .null) (hdn : d.nullable = false)
    (hs : SortNode.applyCursorValues c [] rest = .ok rt) :
    SortNode.applyCursorValues (.mk d (some c)) [] (v :: rest) =
      .ok [(false, .orP (.cmp d.column d.operator v)
        (Builder.toPred (Builder.whereEq [] d.column v ++ rt)))] := by
  have hhead : headValue (v :: rest) = v := rfl
  simp only [SortNode.applyCursorValues, hhead, List.drop_one,
    List.tail_cons, hval]
  have happ : SortNode.applyCursorValues c
      (Builder.whereEq [] d.column v) rest =
      .ok (Builder.whereEq [] d.column v ++ rt) := by
    rw [applyCursorValues_append c, hs]
    simp [Except.map]
  cases v <;> try (exact absurd rfl hvnn)
  all_goals (
    simp only [SortNode.applyCursorValue, happ, bind, Except.bind,
      exceptPureEq, Except.ok.injEq, Builder.whereGroup,
      Builder.orWhereGroup, List.nil_append]
    simp [applyInequality, hdn, Builder.whereCmp, Builder.toPred, toPredAux])

/-- Claim C1, counterexample: on a chain whose head column is nullable
ascending, the emitted predicate also admits rows null on the head
column (the code adds `OR head IS NULL` inside the first disjunct), so
a null row satisfies the built predicate but not the
(column OPERATOR v) OR (column == v AND tail) shape the claim states. -/
theorem keyset_nullable_cx :
    SortNode.applyCursorValues mixedChain [] [.str "m", .str "x"] =
      .ok [(false, .orP (.orP (.cmp "a" .gt (.str "m")) (.isNullP "a"))
        (.andP (.eqv "a" (.str "m")) (.cmp "b" .gt (.str "x"))))] ∧
    evalPred (Builder.toPred
      [(false, .orP (.orP (.cmp "a" .gt (.str "m")) (.isNullP "a"))
        (.andP (.eqv "a" (.str "m")) (.cmp "b" .gt (.str "x"))))])
      rowANull = true ∧
    evalPred (specBoundaryPred mixedChain [.str "m", .str "x"]) rowANull =
      false := by
  refine ⟨?_, ?_, ?_⟩
  · simp [mixedChain, SortNode.applyCursorValues, SortNode.applyCursorValue,
      headValue, ConcreteSortDescriptor.validateCursorValue,
      ConcreteSortDescriptor.checkCursorValue, dNulA, dColB,
      applyInequality, handleNulls, ConcreteSortDescriptor.operator,
      Builder.whereCmp, Builder.whereEq, Builder.whereGroup,
      Builder.orWhereGroup, Builder.orWhereNull, Builder.toPred, toPredAux,
      exceptPureEq, bind, Except.bind]
  · simp [Builder.toPred, toPredAux, evalPred, rowANull, sqlCompare]
  · simp [specBoundaryPred, mixedChain, dNulA, dColB, headValue, evalPred,
      rowANull, sqlCompare, ConcreteSortDescriptor.operator]

/-- Claim C1 (amended): on every boundary chain with no nullable
descriptor, a successful applyCursorValues emits a predicate logically
equal to the keyset disjunction the spec states: (column OPERATOR v) OR
(column == v AND tail-predicate) recursively, with the plain inequality
at the last node (the specBoundaryPred built from the spec's words). -/
theorem applyBoundary_keyset_disjunction : ∀ (node : SortNode)
    (values : List JVal) (r : Builder),
    node.anyNullable = false →
    SortNode.applyCursorValues node [] values = .ok r →
    ∀ row : Row, evalPred r.toPred row =
      evalPred (specBoundaryPred node values) row
  | .mk d none, values, r => by
    intro hnn hr row
    have hdn : d.nullable = false := by simp_all [SortNode.anyNullable]
    simp only [SortNode.applyCursorValues] at hr
    cases hval : d.validateCursorValue (headValue values) .cursor with
    | error e => rw [hval] at hr; cases hr
    | ok u =>
      rw [hval] at hr
      have hnonull := validate_ok_head_not_null d u values hdn hval
      cases hvv : headValue values with
      | null => exact absurd hvv hnonull
      | _ =>
        simp only [hvv] at hr
        simp only [SortNode.applyCursorValue, exceptPureEq,
          Except.ok.injEq] at hr
        simp only [applyInequality, hdn, Bool.false_eq_true, if_false,
          Builder.whereCmp, List.nil_append] at hr
        subst hr
        simp [specBoundaryPred, hvv, Builder.toPred, toPredAux]
  | .mk d (some childNode), values, r => by
    intro hnn hr row
    have hdn : d.nullable = false := by simp_all [SortNode.anyNullable]
    have hcn : childNode.anyNullable = false := by
      simp_all [SortNode.anyNullable]
    simp only [SortNode.applyCursorValues] at hr
    cases hval : d.validateCursorValue (headValue values) .cursor with
    | error e => rw [hval] at hr; cases hr
    | ok u =>
      rw [hval] at hr
      have hnonull := validate_ok_head_not_null d u values hdn hval
      cases hvv : headValue values with
      | null => exact absurd hvv hnonull
      | _ =>
        simp only [hvv] at hr
        simp only [SortNode.applyCursorValue, bind, Except.bind] at hr
        rw [applyCursorValues_append childNode] at hr
        cases hs : SortNode.applyCursorValues childNode []
            (values.drop 1) with
        | error e =>
          rw [hs] at hr
          simp [Except.map] at hr
        | ok rt =>
          rw [hs] at hr
          simp only [Except.map, exceptPureEq, Except.ok.injEq] at hr
          obtain ⟨qt, hqt⟩ :=
            applyCursorValues_ok_shape childNode (values.drop 1) rt hcn hs
          subst hqt
          subst hr
          have ihq := applyBoundary_keyset_disjunction childNode
            (values.drop 1) [(false, qt)] hcn hs row
          simp only [Builder.toPred, toPredAux] at ihq
          simp [Builder.whereGroup, Builder.orWhereGroup, Builder.whereEq,
            Builder.toPred, toPredAux, applyInequality, hdn,
            Builder.whereCmp, specBoundaryPred, hvv, evalPred, ihq]

/-- Witness for C1: the spec tie-break scenario.  The code builds
exactly the expected predicate role gt admin OR (role eq admin AND
(firstName gt Dude OR (firstName eq Dude AND (lastName gt Bro OR
(lastName eq Bro AND id gt 3))))); it is logically equal to the
spec-side keyset disjunction, and a row tied on all columns except a
larger id satisfies it. -/
theorem applyBoundary_keyset_disjunction_witness :
    SortNode.applyCursorValues scenarioChain [] scenarioValues =
      .ok scenarioBuilder ∧
    evalPred scenarioBuilder.toPred scenarioRow =
      evalPred (specBoundaryPred scenarioChain scenarioValues)
        scenarioRow ∧
    evalPred scenarioBuilder.toPred scenarioRow = true := by
  have h4 : SortNode.applyCursorValues (.mk dId none) [] [.int 3] =
      .ok [(false, .cmp "id" .gt (.int 3))] := by
    simp [SortNode.applyCursorValues, SortNode.applyCursorValue, headValue,
      dId, ConcreteSortDescriptor.validateCursorValue,
      ConcreteSortDescriptor.checkCursorValue, applyInequality,
      Builder.whereCmp, ConcreteSortDescriptor.operator, exceptPureEq]
  have h3 := applyCursorValues_cons_step dLastName (.mk dId none)
    (.str "Bro") [.int 3] [(false, .cmp "id" .gt (.int 3))] (.str "Bro")
    rfl (by simp) rfl h4
  have h2 := applyCursorValues_cons_step dFirstName
    (.mk dLastName (some (.mk dId none))) (.str "Dude") [.str "Bro", .int 3]
    _ (.str "Dude") rfl (by simp) rfl h3
  have h1 := applyCursorValues_cons_step dRole
    (.mk dFirstName (some (.mk dLastName (some (.mk dId none)))))
    (.str "admin") [.str "Dude", .str "Bro", .int 3] _ (.str "admin")
    rfl (by simp) rfl h2
  have hok : SortNode.applyCursorValues scenarioChain [] scenarioValues =
      .ok scenarioBuilder := by
    rw [show (scenarioChain : SortNode) = .mk dRole (some (.mk dFirstName
      (some (.mk dLastName (some (.mk dId none)))))) from rfl,
      show scenarioValues =
        .str "admin" :: [.str "Dude", .str "Bro", .int 3] from rfl, h1]
    simp [Builder.whereEq, Builder.toPred, toPredAux, dRole, dFirstName,
      dLastName, dId, ConcreteSortDescriptor.operator, scenarioBuilder]
  refine ⟨hok, ?_, ?_⟩
  · exact applyBoundary_keyset_disjunction scenarioChain scenarioValues
      scenarioBuilder (by simp [scenarioChain, SortNode.anyNullable, dRole,
        dFirstName, dLastName, dId]) hok scenarioRow
  · simp [scenarioBuilder, Builder.toPred, toPredAux, evalPred, scenarioRow,
      sqlCompare]
    decide
